import Mathlib

/-!
Shallow embedding of the billing engine of the Bill-Me repository
(`app.py`, `db_init.py`, `migration.py`), restricted to the behaviour the
program can actually exhibit.

Modelling conventions, matched against the source:

* The database is a record of four tables: `settings` (an association list
  keyed by string, mirroring the `settings` table with `key` primary key and
  integer `value`), `products`, `bills` and `billItems` (lists of rows whose
  fields are the columns declared by the SQLAlchemy models of app.py).
* Monetary values (`rate`, `amount`, `gst_percentage`, `grand_total`) are
  Python floats in the source; they are modelled as `Int` (think of them as
  scaled fixed-point amounts).  No verified property performs fractional
  arithmetic on them.
* Crash semantics.  Three statements in the source raise unconditionally on
  their path and are caught by the enclosing `except Exception` handlers:

  - `generate_pdf` evaluates `datetime.datetime.strptime(...)` at app.py
    line 605 under `from datetime import datetime` (line 5) while building
    the `Bill(...)` constructor arguments — an `AttributeError` on every
    request.  A request whose `productType` is missing or falsy is turned
    away first (400, lines 590-592, no state change); every other request
    first runs `get_next_bill_number`, whose counter increment is committed
    inside that helper (lines 203 and 207), and then fails with a 500
    before the item loop, the stock checks, the flush or the final commit.
    The item validation loop, the stock debit and the bill/item inserts
    (lines 614-650) are consequently unreachable, and this embedding does
    not model them as live code.

  - `cancel_bill` evaluates `bill.id` at app.py line 320, but the `Bill`
    model's only key is `bill_number` — an `AttributeError` for every bill
    that is found.  The handler rolls back and returns a 500, so the stock
    revert, the deletions and the `decrement_bill_number` call (lines
    321-346) are unreachable; a cancellation either reports `Bill not
    found` or fails, and in both cases the database is unchanged.

  - `run_migration` (migration.py) logs `bill.id` at line 59 inside the
    renumbering loop; with at least one legacy bill present the first
    iteration raises, the `except` clause rolls the pending renames back,
    and no bill number ever changes.  With no legacy bill the loop body
    never runs.  The settings seeding of step 1 was committed beforehand
    (line 35) and survives either way, and the `ALTER TABLE` of step 2
    changes the column type only, not the logical state.

* `db.session.commit()` makes the session's pending changes durable and
  `db.session.rollback()` discards pending ones; `get_next_bill_number`
  commits on its own before its caller resumes, which is why its counter
  write survives the later failure of `generate_pdf`.
* Bill identifiers produced by `get_next_bill_number` are always the string
  `f'{prefix}-{current_number}'` (app.py line 210), so a bill number is
  modelled structurally as a prefix string plus an integer, with
  `BillNo.render` giving the concrete string.
-/

namespace BillMe

/-- Row of the `products` table (`Product` model, app.py lines 48-61),
restricted to the columns the verified operations read or write. -/
structure Product where
  id : Nat
  name : String
  product_type : String
  rate : Int
  stock_qty : Int
  gst_percentage : Int
deriving DecidableEq

/-- Structured bill identifier: the prefix letter and the numeric part of
the string `f'{prefix}-{current_number}'` built at app.py line 210. -/
structure BillNo where
  pfx : String
  num : Int
deriving DecidableEq

/-- Concrete string form of a bill identifier, exactly as formatted by
`get_next_bill_number` (app.py line 210). -/
def BillNo.render (b : BillNo) : String := b.pfx ++ "-" ++ toString b.num

/-- Row of the `bills` table (`Bill` model, app.py lines 66-75), restricted
to the columns the verified operations read or write.  The model has no
`id` column: its primary key is `bill_number`, which is what makes the
`bill.id` accesses in `cancel_bill` and migration.py raise. -/
structure Bill where
  bill_number : BillNo
  customer_name : String
  bill_date : String
  grand_total : Int
  product_type : String
deriving DecidableEq

/-- Row of the `bill_items` table, exactly the columns the `BillItem` model
declares (app.py lines 80-88) apart from the autoincrement `id`:
`product_name`, `quantity`, `rate`, `amount` and the `bill_number` foreign
key.  Nothing in the reachable program ever inserts or deletes such rows;
they matter only as pre-existing state. -/
structure BillItem where
  product_name : String
  quantity : Int
  rate : Int
  amount : Int
  bill_number : BillNo
deriving DecidableEq

/-- The persistent state the engine touches: the `settings`, `products`,
`bills` and `bill_items` tables. -/
structure DB where
  settings : List (String × Int)
  products : List Product
  bills : List Bill
  billItems : List BillItem
deriving DecidableEq

/-- Lookup in the `settings` association list
(`Setting.query.filter_by(key=key).first()`). -/
def slookup (k : String) : List (String × Int) → Option Int
  | [] => none
  | (k', v) :: rest => if k' = k then some v else slookup k rest

/-- Write-through update of the `settings` table: overwrite the row with key
`k` if present, otherwise append a fresh row (insert). -/
def supdate (k : String) (v : Int) : List (String × Int) → List (String × Int)
  | [] => [(k, v)]
  | (k', v') :: rest => if k' = k then (k, v) :: rest else (k', v') :: supdate k v rest

/-- First product with the given name
(`Product.query.filter_by(name=...).first()`; `name` is unique). -/
def findProduct (nm : String) : List Product → Option Product
  | [] => none
  | p :: rest => if p.name = nm then some p else findProduct nm rest

/-- First product with the given id (`Product.query.get(product_id)`). -/
def findProductById (pid : Nat) : List Product → Option Product
  | [] => none
  | p :: rest => if p.id = pid then some p else findProductById pid rest

/-- First bill with the given number
(`Bill.query.filter_by(bill_number=...).first()`; primary key). -/
def findBill (bn : BillNo) : List Bill → Option Bill
  | [] => none
  | b :: rest => if b.bill_number = bn then some b else findBill bn rest

/-- Total quantity of a given product across a list of line items. -/
def qtySum (nm : String) : List BillItem → Int
  | [] => 0
  | it :: rest => (if it.product_name = nm then it.quantity else 0) + qtySum nm rest

/-- Stock of the product named `nm` (0 if the product does not exist). -/
def stockVal (nm : String) (prods : List Product) : Int :=
  match findProduct nm prods with
  | some p => p.stock_qty
  | none => 0

/-- The settings key read and written by the allocation path:
`f'last_{product_type}_bill_number'` (app.py lines 198 and 213). -/
def appCounterKey (pt : String) : String := "last_" ++ pt ++ "_bill_number"

/-- Category prefix: `'F' if product_type == 'fertilizer' else 'P'`
(app.py line 209). -/
def pfxFor (pt : String) : String := if pt = "fertilizer" then "F" else "P"

/-- Embedding of `get_next_bill_number` (app.py lines 197-210), which runs
to completion on every call.  A missing row is created with value 100 and
committed; the value is then incremented and committed again, and the
formatted number is returned.  Both commits are durable before the caller
resumes, so the returned settings are the committed table. -/
def get_next_bill_number (pt : String) (st : List (String × Int)) :
    BillNo × List (String × Int) :=
  let cur := (slookup (appCounterKey pt) st).getD 100 + 1
  (⟨pfxFor pt, cur⟩, supdate (appCounterKey pt) cur st)

/-- Embedding of `decrement_bill_number` (app.py lines 212-219): decrement
the category counter only when its current value equals the numeric part of
the bill number (recovered in the source by `bill_number.split('-')[1]`);
no-op when the row is absent or the values differ.  Its only call site,
app.py line 344, sits below the unconditional raise at line 320 and is
never reached, so no execution of the program runs this function. -/
def decrement_bill_number (bn : BillNo) (pt : String) (st : List (String × Int)) :
    List (String × Int) :=
  match slookup (appCounterKey pt) st with
  | none => st
  | some cur => if cur = bn.num then supdate (appCounterKey pt) (cur - 1) st else st

/-- One raw line item of a `generate_pdf` request (an entry of
`data['products']`).  A numeric field is `none` when Python's
`int(...)`/`float(...)` conversion of the submitted text would raise
`ValueError`; the loop that would perform those conversions (app.py lines
616-619) is unreachable, so the fields only describe the payload. -/
structure ReqItem where
  name : String
  qty : Option Int
  rate : Option Int
  amount : Option Int
  gst : Option Int
deriving DecidableEq

/-- The JSON body of a `generate_pdf` request, restricted to the fields the
reachable code reads.  `productType` is `none` when the key is absent
(`data.get('productType')`). -/
structure BillRequest where
  productType : Option String
  customerName : String
  billDate : String
  grandTotal : Int
  products : List ReqItem
deriving DecidableEq

/-- Error responses a `generate_pdf` call can actually produce: the 400 for
a missing or falsy `productType` (app.py lines 590-592) and the 500 from
the `except Exception` handler (lines 682-685), reached on every other
request via the `AttributeError` raised at line 605. -/
inductive BillError where
  | missingProductType
  | creationFailed
deriving DecidableEq

/-- Result of a `generate_pdf` call.  The `ok` constructor corresponds to
the 200 response of app.py line 680; the route's code contains that reply
but no execution reaches it, and the theorems below state as much. -/
inductive CreateResult where
  | ok (bn : BillNo)
  | err (e : BillError)
deriving DecidableEq

/-- Embedding of `generate_pdf` (app.py lines 583-685) as the program
behaves: a missing or empty `productType` is rejected before any state
change; otherwise `get_next_bill_number` commits the counter increment and
the `Bill(...)` construction at line 605 raises `AttributeError`
(`datetime.datetime` under `from datetime import datetime`), so the handler
rolls back the (empty) pending session and returns a 500.  Stock, bills and
bill items are never written; the committed counter survives. -/
def generate_pdf (req : BillRequest) (db : DB) : CreateResult × DB :=
  match req.productType with
  | none => (CreateResult.err BillError.missingProductType, db)
  | some pt =>
      if pt = "" then (CreateResult.err BillError.missingProductType, db)
      else
        (CreateResult.err BillError.creationFailed,
          { db with settings := (get_next_bill_number pt db.settings).2 })

/-- Result of a `cancel_bill` call.  `ok` corresponds to the 200 replies at
app.py lines 325 and 349, which no execution reaches. -/
inductive CancelResult where
  | ok
  | notFound
  | internalError
deriving DecidableEq

/-- Embedding of `cancel_bill` (app.py lines 301-358) as the program
behaves: a missing bill is reported as not found with no change; for a
found bill, evaluating `bill.id` at line 320 raises `AttributeError` (the
`Bill` model has no `id` column), the handler rolls back and returns a
500, and the database is unchanged.  The stock revert, the deletions and
the counter decrement below line 320 are unreachable. -/
def cancel_bill (bn : BillNo) (db : DB) : CancelResult × DB :=
  match findBill bn db.bills with
  | none => (CancelResult.notFound, db)
  | some _ => (CancelResult.internalError, db)

/-- Form data of `add_product` (app.py lines 398-441), restricted to the
fields the engine validates; numeric fields are `none` when conversion
would raise. -/
structure ProductForm where
  name : String
  product_type : String
  rate : Option Int
  stock_qty : Option Int
  gst_percentage : Option Int
deriving DecidableEq

/-- Next autoincrement id for the `products` table. -/
def nextProductId (prods : List Product) : Nat :=
  prods.foldl (fun m p => max m p.id) 0 + 1

/-- Embedding of `add_product_web` (app.py lines 398-441), which uses only
declared `Product` columns and runs to completion: reject unparseable or
negative numerics, let the unique constraint on `name` reject a duplicate,
otherwise insert the row. -/
def add_product_web (f : ProductForm) (db : DB) : Bool × DB :=
  match f.rate, f.stock_qty, f.gst_percentage with
  | some r, some s, some g =>
    if r < 0 ∨ s < 0 ∨ g < 0 then (false, db)
    else if (findProduct f.name db.products).isSome then (false, db)
    else (true, { db with products := db.products ++
      [{ id := nextProductId db.products, name := f.name,
         product_type := f.product_type, rate := r, stock_qty := s,
         gst_percentage := g }] })
  | _, _, _ => (false, db)

/-- Form data of `update_product` (app.py lines 460-511). -/
structure UpdateForm where
  product_id : Nat
  name : String
  product_type : String
  rate : Option Int
  stock_qty : Option Int
  gst_percentage : Option Int
deriving DecidableEq

/-- Embedding of `update_product` (app.py lines 460-511), which uses only
declared `Product` columns and runs to completion: reject unparseable or
negative numerics, report a missing product, let the unique constraint on
`name` reject a rename onto an existing product, otherwise overwrite the
row's fields. -/
def update_product (f : UpdateForm) (db : DB) : Bool × DB :=
  match f.rate, f.stock_qty, f.gst_percentage with
  | some r, some s, some g =>
    if r < 0 ∨ s < 0 ∨ g < 0 then (false, db)
    else
      match findProductById f.product_id db.products with
      | none => (false, db)
      | some _ =>
        if db.products.any (fun p => p.name == f.name && !(p.id == f.product_id)) then
          (false, db)
        else
          (true, { db with products := db.products.map (fun p =>
            if p.id = f.product_id then
              { p with name := f.name, product_type := f.product_type,
                       rate := r, stock_qty := s, gst_percentage := g }
            else p) })
  | _, _, _ => (false, db)

/-- A client-visible operation of the billing engine: bill creation or bill
cancellation. -/
inductive Op where
  | create (req : BillRequest)
  | cancel (bn : BillNo)

/-- State change performed by one operation (discarding the response). -/
def step (db : DB) : Op → DB
  | Op.create req => (generate_pdf req db).2
  | Op.cancel bn => (cancel_bill bn db).2

/-- State after a sequence of creates and cancels. -/
def runOps : DB → List Op → DB
  | db, [] => db
  | db, op :: rest => runOps (step db op) rest

/-- Stock nonnegativity invariant together with the item-quantity
side-invariant on stored line items. -/
def goodDB (db : DB) : Prop :=
  (∀ p ∈ db.products, 0 ≤ p.stock_qty) ∧ (∀ it ∈ db.billItems, 0 ≤ it.quantity)

/-- Whether a character list contains a `/`. -/
def listHasSlash : List Char → Bool
  | [] => false
  | c :: cs => if c = '/' then true else listHasSlash cs

/-- Embedding of the SQL filter `Bill.bill_number.notlike('%/%')` test for a
single value: true when the stored number contains a slash.  A bill whose
number lacks a slash is in the legacy integer format. -/
def containsSlash (s : String) : Bool := listHasSlash s.data

/-- Row of the `bills` table as the migration script sees it: after the
`ALTER TABLE` of migration.py the `bill_number` column is plain text, and
legacy rows hold bare integers rendered as strings.  The `id` field stands
for the row identity the script believes in; the source's `bill.id`
attribute accesses are what raise. -/
structure MBill where
  id : Nat
  bill_number : String
deriving DecidableEq

/-- The tables `run_migration` touches. -/
structure MigState where
  settings : List (String × Int)
  bills : List MBill
deriving DecidableEq

/-- Create a settings row with value 0 when the key is absent (the
`if not Setting.query.filter_by(key=...).first()` blocks of migration.py
and db_init.py). -/
def ensureKey (k : String) (st : List (String × Int)) : List (String × Int) :=
  match slookup k st with
  | some _ => st
  | none => st ++ [(k, 0)]

/-- The settings seeding shared verbatim by migration.py (step 1, lines
14-33) and db_init.py (lines 27-38): create each of the three
`last_bill_number_<type>` rows with value 0 when absent, in source order. -/
def seedBillNumberKeys (st : List (String × Int)) : List (String × Int) :=
  ensureKey "last_bill_number_general"
    (ensureKey "last_bill_number_pesticide"
      (ensureKey "last_bill_number_fertilizer" st))

/-- Embedding of `run_migration` (migration.py lines 9-62) as the program
behaves.  Step 1 seeds the three `last_bill_number_<type>` settings and
commits.  Step 2's `ALTER TABLE` changes the column type only.  Step 3
fetches the bills whose number contains no `/`; if any exists, the loop's
first iteration raises `AttributeError` at line 59 (`bill.id` on a model
with no `id` column) and the `except` clause rolls the pending renames
back, so no bill number ever changes; if none exists the loop body never
runs.  The boolean result is the success flag (true only when the script
reaches its `MIGRATION COMPLETED SUCCESSFULLY` log line). -/
def run_migration (m : MigState) : Bool × MigState :=
  ((m.bills.filter (fun b => !containsSlash b.bill_number)).isEmpty,
    { settings := seedBillNumberKeys m.settings, bills := m.bills })

/-- The settings rows seeded by `create_and_seed_db` (db_init.py lines
27-38): keys `last_bill_number_<type>`, created with value 0 when absent. -/
def create_and_seed_settings (st : List (String × Int)) : List (String × Int) :=
  seedBillNumberKeys st

/-- The request class singled out by the input validation written (but
never reached) at app.py lines 616-621: an unparseable numeric field, a
non-positive quantity, or a negative rate/amount/gst. -/
def invalidItem (it : ReqItem) : Prop :=
  it.qty = none ∨ it.rate = none ∨ it.amount = none ∨ it.gst = none ∨
  (∃ q, it.qty = some q ∧ q ≤ 0) ∨ (∃ r, it.rate = some r ∧ r < 0) ∨
  (∃ a, it.amount = some a ∧ a < 0) ∨ (∃ g, it.gst = some g ∧ g < 0)

/-- The request class singled out by the inventory checks written (but
never reached) at app.py lines 627-638 against the given catalogue: the
named product is missing, or the requested quantity exceeds its stock. -/
def badStockItem (prods : List Product) (it : ReqItem) : Prop :=
  findProduct it.name prods = none ∨
  ∃ q p, it.qty = some q ∧ findProduct it.name prods = some p ∧ p.stock_qty < q

/-- State with a fertilizer counter at 100 and one fertilizer product. -/
def c1db : DB :=
  { settings := [("last_fertilizer_bill_number", 100)],
    products := [{ id := 1, name := "Urea", product_type := "fertilizer",
                   rate := 10, stock_qty := 5, gst_percentage := 0 }],
    bills := [], billItems := [] }

/-- Creation request naming the fertilizer category. -/
def c1req : BillRequest :=
  { productType := some "fertilizer", customerName := "A",
    billDate := "2024-01-01", grandTotal := 300,
    products := [{ name := "Urea", qty := some 30, rate := some 10,
                   amount := some 300, gst := some 0 }] }

/-- State with two products, the second of which is short on stock. -/
def c2db : DB :=
  { settings := [("last_fertilizer_bill_number", 100)],
    products := [{ id := 1, name := "Urea", product_type := "fertilizer",
                   rate := 10, stock_qty := 100, gst_percentage := 0 },
                 { id := 2, name := "DAP", product_type := "fertilizer",
                   rate := 20, stock_qty := 5, gst_percentage := 0 }],
    bills := [], billItems := [] }

/-- Request whose second line asks for more than the second product's
stock. -/
def c2req : BillRequest :=
  { productType := some "fertilizer", customerName := "B",
    billDate := "2024-01-02", grandTotal := 1100,
    products := [{ name := "Urea", qty := some 10, rate := some 10,
                   amount := some 100, gst := some 0 },
                 { name := "DAP", qty := some 50, rate := some 20,
                   amount := some 1000, gst := some 0 }] }

/-- State with a one-line fertilizer bill whose number equals the current
counter value — the configuration in which the claimed reclaim would
decrement the counter. -/
def c4db2 : DB :=
  { settings := [("last_fertilizer_bill_number", 101)],
    products := [{ id := 1, name := "Urea", product_type := "fertilizer",
                   rate := 10, stock_qty := 50, gst_percentage := 0 }],
    bills := [{ bill_number := ⟨"F", 101⟩, customer_name := "D",
                bill_date := "2024-01-04", grand_total := 50,
                product_type := "fertilizer" }],
    billItems := [{ product_name := "Urea", quantity := 5, rate := 10,
                    amount := 50, bill_number := ⟨"F", 101⟩ }] }

/-- State with one well-stocked product and no bills. -/
def c5db : DB :=
  { settings := [("last_fertilizer_bill_number", 100)],
    products := [{ id := 1, name := "Urea", product_type := "fertilizer",
                   rate := 10, stock_qty := 100, gst_percentage := 0 }],
    bills := [], billItems := [] }

/-- One-line creation request against `c5db`. -/
def c5req : BillRequest :=
  { productType := some "fertilizer", customerName := "E",
    billDate := "2024-01-05", grandTotal := 300,
    products := [{ name := "Urea", qty := some 30, rate := some 10,
                   amount := some 300, gst := some 0 }] }

/-- Attempt a creation and then a cancellation. -/
def c5ops : List Op := [Op.create c5req, Op.cancel ⟨"F", 101⟩]

/-- State with a pesticide counter and nothing else. -/
def c7db : DB :=
  { settings := [("last_pesticide_bill_number", 200)],
    products := [], bills := [], billItems := [] }

/-- Request with an empty line-item list. -/
def c7req : BillRequest :=
  { productType := some "pesticide", customerName := "H",
    billDate := "2024-01-07", grandTotal := 50, products := [] }

/-- Request with a zero-quantity line item. -/
def c7req2 : BillRequest :=
  { productType := some "pesticide", customerName := "H",
    billDate := "2024-01-07", grandTotal := 0,
    products := [{ name := "X", qty := some 0, rate := some 5,
                   amount := some 0, gst := some 0 }] }

/-- Valid product form for the nonnegativity witness. -/
def c8form : ProductForm :=
  { name := "DAP", product_type := "fertilizer", rate := some 20,
    stock_qty := some 40, gst_percentage := some 5 }

/-- Valid update form for the nonnegativity witness. -/
def c8update : UpdateForm :=
  { product_id := 1, name := "Urea", product_type := "fertilizer",
    rate := some 12, stock_qty := some 80, gst_percentage := some 0 }

/-- Migration state holding a single bill still numbered in the legacy
integer format. -/
def c9mig : MigState :=
  { settings := [], bills := [{ id := 1, bill_number := "5" }] }

/-! Helper lemmas. -/

theorem slookup_supdate_self (k : String) (v : Int) (st : List (String × Int)) :
    slookup k (supdate k v st) = some v := by
  induction st with
  | nil => simp [supdate, slookup]
  | cons kv rest ih =>
      by_cases h : kv.1 = k
      · simp [supdate, slookup, h]
      · simpa [supdate, slookup, h] using ih

theorem generate_pdf_keeps_tables (req : BillRequest) (db : DB) :
    (generate_pdf req db).2.products = db.products ∧
    (generate_pdf req db).2.bills = db.bills ∧
    (generate_pdf req db).2.billItems = db.billItems := by
  unfold generate_pdf
  cases hpt : req.productType with
  | none => exact ⟨rfl, rfl, rfl⟩
  | some pt =>
      by_cases hne : pt = ""
      · simp only [if_pos hne]
        refine ⟨?_, ?_, ?_⟩ <;> trivial
      · simp only [if_neg hne]
        refine ⟨?_, ?_, ?_⟩ <;> trivial

theorem cancel_bill_keeps_state (bn : BillNo) (db : DB) :
    (cancel_bill bn db).2 = db := by
  unfold cancel_bill
  cases findBill bn db.bills <;> rfl

theorem step_keeps_tables (db : DB) (op : Op) :
    (step db op).products = db.products ∧ (step db op).billItems = db.billItems := by
  cases op with
  | create req =>
      obtain ⟨h1, -, h3⟩ := generate_pdf_keeps_tables req db
      exact ⟨h1, h3⟩
  | cancel bn =>
      have h := cancel_bill_keeps_state bn db
      constructor
      · show (cancel_bill bn db).2.products = db.products
        rw [h]
      · show (cancel_bill bn db).2.billItems = db.billItems
        rw [h]

theorem runOps_keeps_tables :
    ∀ (ops : List Op) (db : DB),
      (runOps db ops).products = db.products ∧
      (runOps db ops).billItems = db.billItems := by
  intro ops
  induction ops with
  | nil => intro db; exact ⟨rfl, rfl⟩
  | cons op rest ih =>
      intro db
      have hstep := step_keeps_tables db op
      have hrec := ih (step db op)
      have hrun : runOps db (op :: rest) = runOps (step db op) rest := rfl
      rw [hrun]
      exact ⟨hrec.1.trans hstep.1, hrec.2.trans hstep.2⟩

/-! Claim theorems. -/

/-- C1 counterexample: a CreateBill request in which the sequence
allocation succeeds and a later step fails (the header construction raises
at app.py line 605) returns an error, yet the category counter — committed
separately inside `get_next_bill_number` — remains incremented from 100 to
101 instead of being restored, refuting the claim that every piece of
persistent state is exactly as before the call. -/
theorem c1_counter_not_restored_cex :
    (generate_pdf c1req c1db).1 = CreateResult.err BillError.creationFailed ∧
    slookup "last_fertilizer_bill_number" c1db.settings = some 100 ∧
    slookup "last_fertilizer_bill_number" (generate_pdf c1req c1db).2.settings =
      some 101 := by
  refine ⟨?_, ?_, ?_⟩ <;> decide

/-- C1 amended: every CreateBill request whose sequence allocation succeeds
(a category is named) subsequently fails — the bill-header construction
raises before any stock or bill write — and the call returns an error with
stock quantities and bill/bill-item rows exactly as before, while the
category's sequence counter keeps its separately committed increment (one
more than before, or a freshly created row at 101), leaving a permanent
gap. -/
theorem c1_rollback_except_counter (db : DB) (req : BillRequest) (pt : String)
    (hpt : req.productType = some pt) (hne : pt ≠ "") :
    (generate_pdf req db).1 = CreateResult.err BillError.creationFailed ∧
    (generate_pdf req db).2.products = db.products ∧
    (generate_pdf req db).2.bills = db.bills ∧
    (generate_pdf req db).2.billItems = db.billItems ∧
    (generate_pdf req db).2.settings =
      supdate (appCounterKey pt)
        ((slookup (appCounterKey pt) db.settings).getD 100 + 1) db.settings := by
  unfold generate_pdf
  rw [hpt]
  simp only [if_neg hne]
  refine ⟨?_, ?_, ?_, ?_, ?_⟩ <;> trivial

/-- Witness for C1's amended theorem at the counterexample's request. -/
theorem c1_rollback_except_counter_witness :
    (generate_pdf c1req c1db).1 = CreateResult.err BillError.creationFailed ∧
    (generate_pdf c1req c1db).2.products = c1db.products ∧
    (generate_pdf c1req c1db).2.bills = c1db.bills ∧
    (generate_pdf c1req c1db).2.billItems = c1db.billItems ∧
    (generate_pdf c1req c1db).2.settings =
      supdate (appCounterKey "fertilizer")
        ((slookup (appCounterKey "fertilizer") c1db.settings).getD 100 + 1)
        c1db.settings :=
  c1_rollback_except_counter c1db c1req "fertilizer" rfl (by decide)

/-- C2: a CreateBill request containing a line item that names a missing
product or asks for more than its available stock fails, and the product
table — hence the stock of every product named in the request — is
unchanged (every creation fails before any stock write). -/
theorem c2_all_or_nothing (db : DB) (req : BillRequest)
    (_hbad : ∃ it ∈ req.products, badStockItem db.products it) :
    (∀ bn, (generate_pdf req db).1 ≠ CreateResult.ok bn) ∧
    (generate_pdf req db).2.products = db.products := by
  unfold generate_pdf
  cases hpt : req.productType with
  | none => exact ⟨fun bn h => by simp at h, rfl⟩
  | some pt =>
      by_cases hne : pt = ""
      · simp only [if_pos hne]
        refine ⟨fun bn h => by simp at h, ?_⟩
        trivial
      · simp only [if_neg hne]
        refine ⟨fun bn h => by simp at h, ?_⟩
        trivial

/-- Witness for C2 at a concrete request whose second line exceeds stock:
the call fails and no debit is kept. -/
theorem c2_all_or_nothing_witness :
    (∀ bn, (generate_pdf c2req c2db).1 ≠ CreateResult.ok bn) ∧
    (generate_pdf c2req c2db).2.products = c2db.products :=
  c2_all_or_nothing c2db c2req
    ⟨(⟨"DAP", some 50, some 20, some 1000, some 0⟩ : ReqItem),
     by decide,
     Or.inr ⟨50, (⟨2, "DAP", "fertilizer", 20, 5, 0⟩ : Product),
       rfl, by decide, by decide⟩⟩

/-- C4: evaluation at the failing input: cancelling the existing one-line
bill `F-101` while the fertilizer counter equals its suffix 101 does not
cancel the bill and does not decrement the counter — the call fails with
the 500 raised at app.py line 320 and the database, the counter row
included, is exactly unchanged. -/
theorem c4_cancel_always_fails :
    (cancel_bill ⟨"F", 101⟩ c4db2).1 = CancelResult.internalError ∧
    (cancel_bill ⟨"F", 101⟩ c4db2).2 = c4db2 ∧
    slookup "last_fertilizer_bill_number" (cancel_bill ⟨"F", 101⟩ c4db2).2.settings =
      some 101 ∧
    findBill ⟨"F", 101⟩ (cancel_bill ⟨"F", 101⟩ c4db2).2.bills ≠ none := by
  refine ⟨?_, ?_, ?_, ?_⟩ <;> decide

/-- C5: starting from a state with no stored line items, after any sequence
of creates and cancels each product's stock equals its initial stock minus
the summed quantities of that product in the line items of still-active
bills (no reachable operation writes stock or line items, so both sides
stay at their initial values). -/
theorem c5_stock_ledger (db0 : DB) (h0 : db0.billItems = [])
    (ops : List Op) (nm : String) :
    stockVal nm (runOps db0 ops).products
      = stockVal nm db0.products - qtySum nm (runOps db0 ops).billItems := by
  obtain ⟨hp, hi⟩ := runOps_keeps_tables ops db0
  rw [hp, hi, h0]
  simp [qtySum]

/-- Witness for C5: a creation attempt for 30 units of Urea followed by a
cancellation leaves the ledger equation intact on the concrete state. -/
theorem c5_stock_ledger_witness :
    stockVal "Urea" (runOps c5db c5ops).products
      = stockVal "Urea" c5db.products - qtySum "Urea" (runOps c5db c5ops).billItems :=
  c5_stock_ledger c5db rfl c5ops "Urea"

/-- C7 counterexample: a CreateBill request with an empty line-item list
fails — but with the generic 500 of the header-construction crash, not
`InvalidInput` — and the call does change persistent state: the pesticide
counter moves from 200 to 201, refuting the claim that no state (stock,
counters) changes as a result of the call. -/
theorem c7_counter_moves_on_rejected_request_cex :
    c7req.products = [] ∧
    (generate_pdf c7req c7db).1 = CreateResult.err BillError.creationFailed ∧
    (generate_pdf c7req c7db).2.bills = [] ∧
    slookup "last_pesticide_bill_number" c7db.settings = some 200 ∧
    slookup "last_pesticide_bill_number" (generate_pdf c7req c7db).2.settings =
      some 201 := by
  refine ⟨?_, ?_, ?_, ?_, ?_⟩ <;> decide

/-- C7 amended: a CreateBill request naming a category whose line-item list
is empty or contains an invalid line (quantity ≤ 0, negative
rate/amount/tax, or an unparseable numeric field) fails — with the generic
internal error of the header-construction crash, not `InvalidInput`, since
the per-line validation is never reached — and no bill, line item or stock
change is persisted, but the category's sequence counter keeps its
committed increment. -/
theorem c7_invalid_line_item (db : DB) (req : BillRequest) (pt : String)
    (hpt : req.productType = some pt) (hne : pt ≠ "")
    (_hbad : req.products = [] ∨ ∃ it ∈ req.products, invalidItem it) :
    (generate_pdf req db).1 = CreateResult.err BillError.creationFailed ∧
    (generate_pdf req db).2.products = db.products ∧
    (generate_pdf req db).2.bills = db.bills ∧
    (generate_pdf req db).2.billItems = db.billItems ∧
    (generate_pdf req db).2.settings =
      supdate (appCounterKey pt)
        ((slookup (appCounterKey pt) db.settings).getD 100 + 1) db.settings := by
  unfold generate_pdf
  rw [hpt]
  simp only [if_neg hne]
  refine ⟨?_, ?_, ?_, ?_, ?_⟩ <;> trivial

/-- Witness for C7's amended theorem at a request with a zero-quantity
line. -/
theorem c7_invalid_line_item_witness :
    (generate_pdf c7req2 c7db).1 = CreateResult.err BillError.creationFailed ∧
    (generate_pdf c7req2 c7db).2.products = c7db.products ∧
    (generate_pdf c7req2 c7db).2.bills = c7db.bills ∧
    (generate_pdf c7req2 c7db).2.billItems = c7db.billItems ∧
    (generate_pdf c7req2 c7db).2.settings =
      supdate (appCounterKey "pesticide")
        ((slookup (appCounterKey "pesticide") c7db.settings).getD 100 + 1)
        c7db.settings :=
  c7_invalid_line_item c7db c7req2 "pesticide" rfl (by decide)
    (Or.inr ⟨(⟨"X", some 0, some 5, some 0, some 0⟩ : ReqItem), by decide,
      Or.inr (Or.inr (Or.inr (Or.inr (Or.inl ⟨0, rfl, by decide⟩))))⟩)

/-- C8: every operation that writes `stock_qty` — product creation, product
update, the debit performed by bill creation and the credit performed by
cancellation — preserves nonnegativity of all stock quantities (together
with the nonnegativity of stored line-item quantities); creation and
cancellation never reach their stock writes and trivially preserve it. -/
theorem c8_stock_never_negative (db : DB) (f : ProductForm) (u : UpdateForm)
    (req : BillRequest) (bn : BillNo) (h : goodDB db) :
    goodDB (add_product_web f db).2 ∧ goodDB (update_product u db).2 ∧
    goodDB (generate_pdf req db).2 ∧ goodDB (cancel_bill bn db).2 := by
  obtain ⟨hp, hi⟩ := h
  refine ⟨?_, ?_, ?_, ?_⟩
  · unfold add_product_web
    cases hr : f.rate with
    | none => exact ⟨hp, hi⟩
    | some r =>
    cases hs : f.stock_qty with
    | none => exact ⟨hp, hi⟩
    | some s =>
    cases hg : f.gst_percentage with
    | none => exact ⟨hp, hi⟩
    | some g =>
    by_cases hneg : r < 0 ∨ s < 0 ∨ g < 0
    · simp only [if_pos hneg]
      exact ⟨hp, hi⟩
    · simp only [if_neg hneg]
      by_cases hdup : (findProduct f.name db.products).isSome = true
      · simp only [if_pos hdup]
        exact ⟨hp, hi⟩
      · simp only [if_neg hdup]
        refine ⟨?_, hi⟩
        intro p hpmem
        rcases List.mem_append.mp hpmem with hm | hm
        · exact hp p hm
        · simp at hm
          rw [hm]
          simp
          omega
  · unfold update_product
    cases hr : u.rate with
    | none => exact ⟨hp, hi⟩
    | some r =>
    cases hs : u.stock_qty with
    | none => exact ⟨hp, hi⟩
    | some s =>
    cases hg : u.gst_percentage with
    | none => exact ⟨hp, hi⟩
    | some g =>
    by_cases hneg : r < 0 ∨ s < 0 ∨ g < 0
    · simp only [if_pos hneg]
      exact ⟨hp, hi⟩
    · simp only [if_neg hneg]
      cases hfind : findProductById u.product_id db.products with
      | none => exact ⟨hp, hi⟩
      | some p0 =>
          by_cases hdup : db.products.any
              (fun p => p.name == u.name && !(p.id == u.product_id)) = true
          · simp only [if_pos hdup]
            exact ⟨hp, hi⟩
          · simp only [if_neg hdup]
            refine ⟨?_, hi⟩
            intro p hpmem
            obtain ⟨a, ha, hpa⟩ := List.mem_map.mp hpmem
            by_cases hid : a.id = u.product_id
            · rw [← hpa]
              simp [hid]
              omega
            · rw [← hpa]
              simp [hid]
              exact hp a ha
  · obtain ⟨h1, -, h3⟩ := generate_pdf_keeps_tables req db
    exact ⟨by rw [h1]; exact hp, by rw [h3]; exact hi⟩
  · rw [cancel_bill_keeps_state]
    exact ⟨hp, hi⟩

/-- Witness for C8 at a concrete state, product form, update form, create
request and cancellation. -/
theorem c8_stock_never_negative_witness :
    goodDB (add_product_web c8form c5db).2 ∧ goodDB (update_product c8update c5db).2 ∧
    goodDB (generate_pdf c5req c5db).2 ∧ goodDB (cancel_bill ⟨"F", 101⟩ c5db).2 :=
  c8_stock_never_negative c5db c8form c8update c5req ⟨"F", 101⟩
    ⟨by decide, by decide⟩

/-- C9: evaluation at the failing input: with one bill still numbered `5`,
the migration reports failure and converts nothing — the bill keeps its
legacy number, the legacy filter applied after the run still matches it (so
a second run finds it again, directly against the claim), and a second run
leaves the same state only because neither run ever changes a bill
number. -/
theorem c9_migration_never_renumbers :
    (run_migration c9mig).1 = false ∧
    (run_migration c9mig).2.bills = [{ id := 1, bill_number := "5" }] ∧
    (run_migration c9mig).2.bills.filter (fun b => !containsSlash b.bill_number) =
      [{ id := 1, bill_number := "5" }] ∧
    (run_migration (run_migration c9mig).2).2 = (run_migration c9mig).2 := by
  refine ⟨?_, ?_, ?_, ?_⟩ <;> decide

/-- C10: when no row with the allocation key `last_<type>_bill_number`
exists, `get_next_bill_number` creates it and returns numeric part 101, and
the counters seeded under the distinct keys `last_bill_number_<type>` by
db_init.py and migration.py are invisible to allocation, so a freshly
seeded database still issues 101 first. -/
theorem c10_fresh_category_starts_at_101 (st : List (String × Int)) (pt : String)
    (h : slookup (appCounterKey pt) st = none) :
    (get_next_bill_number pt st).1.num = 101 ∧
    slookup (appCounterKey pt) (get_next_bill_number pt st).2 = some 101 ∧
    slookup (appCounterKey "fertilizer") (create_and_seed_settings []) = none ∧
    (get_next_bill_number "fertilizer" (create_and_seed_settings [])).1.num = 101 := by
  refine ⟨?_, ?_, ?_, ?_⟩
  · simp [get_next_bill_number, h]
  · simp [get_next_bill_number, h, slookup_supdate_self]
  · decide
  · decide

/-- Witness for C10 on the settings table seeded by db_init.py: the first
fertilizer allocation returns numeric part 101. -/
theorem c10_fresh_category_starts_at_101_witness :
    (get_next_bill_number "fertilizer" (create_and_seed_settings [])).1.num = 101 ∧
    slookup (appCounterKey "fertilizer")
      (get_next_bill_number "fertilizer" (create_and_seed_settings [])).2 = some 101 ∧
    slookup (appCounterKey "fertilizer") (create_and_seed_settings []) = none ∧
    (get_next_bill_number "fertilizer" (create_and_seed_settings [])).1.num = 101 :=
  c10_fresh_category_starts_at_101 (create_and_seed_settings []) "fertilizer" (by decide)

end BillMe
